import Mathlib

/-!
Verification development for the deck-design-detective core pipeline:
a PPTX package extractor (`parsePptxFile`), a natural-language rule
compiler (`parseRuleText` and its extraction helpers), and a validation
engine (`validatePresentation` and the per-kind checkers).

The TypeScript sources are embedded shallowly:

* JavaScript strings are Lean `String`s; `includes`, `substring(0, n)`,
  `trim`, `toLowerCase`, `startsWith`, `endsWith`, `join` are modelled by
  `jsIncludes`, `jsSubstr0`, `jsTrim`, `jsToLower`, `jsStartsWith`,
  `jsEndsWith`, `jsJoin`.
* JavaScript numbers holding font sizes and rule bounds are modelled as
  `ℚ` (font sizes are produced by the source as `parseInt(sz) / 100`).
  Number-to-string interpolation is modelled by `numStr`, which agrees
  with JavaScript for integral values (all values exercised here);
  non-integral rendering is not relied upon by any theorem.
* JavaScript truthiness tests on optional numbers are modelled by
  `qTruthy` (`0` is falsy); the truthiness test on an optional string is
  a case split plus a non-emptiness test at its use sites.
* The literal regexes of the rule compiler are embedded by `RE`, a tiny
  backtracking matcher whose alternative ordering, greedy `?`/`*`/`+`
  and lazy `+?` quantifiers reproduce the JavaScript engine's behaviour
  on these character-class-only patterns.
* The third-party XML parser (`fast-xml-parser`) is not re-implemented:
  each zip entry carries the abstract outcome of parsing its content
  (`none` models a thrown parse error), exactly as consumed by
  `parsePptxFile` / `parseSlideXml`.
-/

set_option maxRecDepth 8000

/-! ## JavaScript string primitives

All string operations are implemented structurally on the character list of
a `String` (rather than through the byte-position loops of the core library)
so that every definition evaluates by plain kernel reduction. -/

/-- JavaScript `toLowerCase` (ASCII case mapping, which covers every string
the sources produce or compare). -/
def jsToLower (s : String) : String := String.mk (s.data.map Char.toLower)

/-- JavaScript `trim`: strip leading and trailing whitespace. -/
def jsTrim (s : String) : String :=
  String.mk (((s.data.dropWhile Char.isWhitespace).reverse.dropWhile
    Char.isWhitespace).reverse)

/-- JavaScript `substring(0, n)`. -/
def jsSubstr0 (s : String) (n : ℕ) : String := String.mk (s.data.take n)

/-- JavaScript `startsWith`. -/
def jsStartsWith (s p : String) : Bool := p.data.isPrefixOf s.data

/-- JavaScript `endsWith`. -/
def jsEndsWith (s p : String) : Bool := p.data.reverse.isPrefixOf s.data.reverse

/-- Occurrence of `needle` anywhere in `hay`, scanning start positions. -/
def charsInclude (needle : List Char) : List Char → Bool
  | [] => needle.isPrefixOf ([] : List Char)
  | c :: cs => needle.isPrefixOf (c :: cs) || charsInclude needle cs

/-- JavaScript `hay.includes(needle)`: substring containment. -/
def jsIncludes (hay needle : String) : Bool :=
  charsInclude needle.data hay.data

/-- Truthiness of an optional JavaScript number (`undefined` and `0` are falsy). -/
def qTruthy : Option ℚ → Bool
  | none => false
  | some v => decide (v ≠ 0)

/-- Rendering of a JavaScript number into a template string; agrees with
JavaScript for integral values, which are the only ones any theorem below
depends on. -/
def numStr (q : ℚ) : String :=
  if q.den = 1 then toString q.num else toString q

/-- JavaScript array `join(", ")`. -/
def jsJoin : List String → String
  | [] => ""
  | x :: rest => rest.foldl (fun acc y => acc ++ ", " ++ y) x

/-! ## A miniature regex engine

The rule compiler uses a handful of literal regexes built from literals,
character classes (`\s`, `\d`, `[^.]`), greedy `?`/`*`/`+`, one lazy `+?`,
ordered alternation, one capture group and `$`.  `RE` embeds exactly these
constructs; `matchRE` enumerates the possible (remaining-input, capture)
outcomes in the JavaScript engine's backtracking priority order, and
`reSearch` scans start positions left to right as `String.prototype.match`
does. -/

inductive RE where
  | lit (s : List Char)
  | cat (a b : RE)
  | alt (a b : RE)
  | opt (a : RE)
  | star (p : Char → Bool)
  | plus (p : Char → Bool)
  | plusLazy (p : Char → Bool)
  | eos
  | group (a : RE)

/-- Remainders after a greedy `p*` at the front, longest match first. -/
def starCands (p : Char → Bool) (cs : List Char) : List (List Char) :=
  let k := (cs.takeWhile p).length
  (List.range (k + 1)).map (fun j => cs.drop (k - j))

/-- Remainders after a greedy `p+` at the front, longest match first. -/
def plusCands (p : Char → Bool) (cs : List Char) : List (List Char) :=
  let k := (cs.takeWhile p).length
  (List.range k).map (fun j => cs.drop (k - j))

/-- Remainders after a lazy `p+?` at the front, shortest match first. -/
def lazyCands (p : Char → Bool) (cs : List Char) : List (List Char) :=
  let k := (cs.takeWhile p).length
  (List.range k).map (fun j => cs.drop (j + 1))

/-- All ways the pattern can match a prefix of `cs`, in backtracking
priority order; each outcome is the remaining input together with the
capture of the (single) group, if any. -/
def matchRE : RE → List Char → List (List Char × Option (List Char))
  | .lit s, cs => if s.isPrefixOf cs then [(cs.drop s.length, none)] else []
  | .cat a b, cs =>
    (matchRE a cs).flatMap fun rc =>
      (matchRE b rc.1).map fun rc2 => (rc2.1, rc.2 <|> rc2.2)
  | .alt a b, cs => matchRE a cs ++ matchRE b cs
  | .opt a, cs => matchRE a cs ++ [(cs, none)]
  | .star p, cs => (starCands p cs).map fun r => (r, none)
  | .plus p, cs => (plusCands p cs).map fun r => (r, none)
  | .plusLazy p, cs => (lazyCands p cs).map fun r => (r, none)
  | .eos, cs => if cs.isEmpty then [([], none)] else []
  | .group a, cs =>
    (matchRE a cs).map fun rc => (rc.1, some (cs.take (cs.length - rc.1.length)))

/-- Leftmost match: returns (start index, matched length, capture). -/
def reSearchGo (re : RE) (start : Nat) : List Char → Option (Nat × Nat × Option (List Char))
  | [] =>
    match (matchRE re []).head? with
    | some rc => some (start, 0, rc.2)
    | none => none
  | c :: cs =>
    match (matchRE re (c :: cs)).head? with
    | some rc => some (start, (c :: cs).length - rc.1.length, rc.2)
    | none => reSearchGo re (start + 1) cs

def reSearch (re : RE) (cs : List Char) : Option (Nat × Nat × Option (List Char)) :=
  reSearchGo re 0 cs

/-- The capture of the first match of `re` in `s` (JavaScript `s.match(re)[1]`). -/
def reSearchCapture (re : RE) (s : String) : Option (List Char) :=
  match reSearch re s.data with
  | some r => r.2.2
  | none => none

/-- JavaScript `parseInt` on a string of decimal digits (all captures fed to
`parseInt` by the source are `\d+` captures). -/
def parseIntDigits (ds : List Char) : Nat :=
  ds.foldl (fun n c => n * 10 + (c.toNat - 48)) 0

/-- JavaScript `String.prototype.split(re)`: split at every non-overlapping
leftmost match.  Fuel-based recursion; every regex the source splits on
matches at least one character, so the fuel `cs.length + 1` is never
exhausted. -/
def jsSplitGo (re : RE) : Nat → List Char → List (List Char)
  | 0, cs => [cs]
  | fuel + 1, cs =>
    match reSearch re cs with
    | none => [cs]
    | some (start, len, _) =>
      if len = 0 then [cs]
      else cs.take start :: jsSplitGo re fuel (cs.drop (start + len))

def jsSplit (re : RE) (s : String) : List String :=
  (jsSplitGo re (s.data.length + 1) s.data).map fun cs => String.mk cs

/-! ## The regexes of `rules-parser.ts`, as written in the source -/

def wsP : Char → Bool := Char.isWhitespace
def digitP : Char → Bool := Char.isDigit
def notDotP : Char → Bool := fun c => c ≠ '.'

/-- Regex `/min(?:imum)?\s*(?:is\s*|:\s*)?(\d+)/i` (input is pre-lowercased). -/
def minRE : RE :=
  .cat (.lit "min".data)
    (.cat (.opt (.lit "imum".data))
      (.cat (.star wsP)
        (.cat (.opt (.alt (.cat (.lit "is".data) (.star wsP))
                          (.cat (.lit ":".data) (.star wsP))))
          (.group (.plus digitP)))))

/-- Regex `/at\s+least\s+(\d+)/i`. -/
def atLeastRE : RE :=
  .cat (.lit "at".data)
    (.cat (.plus wsP)
      (.cat (.lit "least".data)
        (.cat (.plus wsP) (.group (.plus digitP)))))

/-- Regex `/(\d+)\s*(?:pt|px|points?)\s*or\s*higher/i`. -/
def orHigherRE : RE :=
  .cat (.group (.plus digitP))
    (.cat (.star wsP)
      (.cat (.alt (.lit "pt".data)
                  (.alt (.lit "px".data)
                        (.cat (.lit "point".data) (.opt (.lit "s".data)))))
        (.cat (.star wsP)
          (.cat (.lit "or".data)
            (.cat (.star wsP) (.lit "higher".data))))))

/-- Regex `/max(?:imum)?\s*(?:is\s*|:\s*)?(\d+)/i`. -/
def maxRE : RE :=
  .cat (.lit "max".data)
    (.cat (.opt (.lit "imum".data))
      (.cat (.star wsP)
        (.cat (.opt (.alt (.cat (.lit "is".data) (.star wsP))
                          (.cat (.lit ":".data) (.star wsP))))
          (.group (.plus digitP)))))

/-- Regex `/no\s+more\s+than\s+(\d+)/i`. -/
def noMoreThanRE : RE :=
  .cat (.lit "no".data)
    (.cat (.plus wsP)
      (.cat (.lit "more".data)
        (.cat (.plus wsP)
          (.cat (.lit "than".data)
            (.cat (.plus wsP) (.group (.plus digitP)))))))

/-- Regex `/allowed?:\s*([^.]+)/i`. -/
def colonListRE : RE :=
  .cat (.lit "allowe".data)
    (.cat (.opt (.lit "d".data))
      (.cat (.lit ":".data)
        (.cat (.star wsP) (.group (.plus notDotP)))))

/-- Regex `/only\s+([^.]+?)(?:\s+are?\s+allowed|$)/i`. -/
def onlyListRE : RE :=
  .cat (.lit "only".data)
    (.cat (.plus wsP)
      (.cat (.group (.plusLazy notDotP))
        (.alt (.cat (.plus wsP)
                (.cat (.lit "ar".data)
                  (.cat (.opt (.lit "e".data))
                    (.cat (.plus wsP) (.lit "allowed".data)))))
              .eos)))

/-- Regex `/[,&]|\s+and\s+/` (the list-item separator). -/
def listSepRE : RE :=
  .alt (.alt (.lit ",".data) (.lit "&".data))
    (.cat (.plus wsP) (.cat (.lit "and".data) (.plus wsP)))

/-- Regex `/slide(\d+)\.xml/` (slide-part index extraction in `pptx-parser.ts`). -/
def slideNumRE : RE :=
  .cat (.lit "slide".data) (.cat (.group (.plus digitP)) (.lit ".xml".data))

/-! ## Data model (`rules-parser.ts`, `pptx-parser.ts`, `rule-validator.ts`) -/

/-- One formatted text run of a slide (`SlideContent.texts` element). -/
structure TextRun where
  content : String
  fontSize : Option ℚ := none
  fontFamily : Option String := none
  color : Option String := none
  isBold : Bool := false
  isItalic : Bool := false
deriving DecidableEq, Repr

/-- One image reference of a slide (`SlideContent.images` element). -/
structure ImageRef where
  name : String
  type : String
deriving DecidableEq, Repr

/-- One shape of a slide (`SlideContent.shapes` element). -/
structure ShapeRef where
  type : String
  text : Option String := none
deriving DecidableEq, Repr

/-- Slide background (`SlideContent.background`). -/
structure Background where
  type : String
  color : Option String := none
  image : Option String := none
deriving DecidableEq, Repr

/-- The normalized model of one slide. -/
structure SlideContent where
  slideNumber : ℕ
  texts : List TextRun
  images : List ImageRef
  shapes : List ShapeRef
  background : Option Background := none
deriving DecidableEq, Repr

/-- Theme colors and fonts (`ParsedPresentation.theme`). -/
structure ThemeData where
  colors : List String
  fonts : List String
deriving DecidableEq, Repr

/-- Result of the package extractor. -/
structure ParsedPresentation where
  slides : List SlideContent
  theme : Option ThemeData := none
deriving DecidableEq, Repr

/-- The discriminated rule kind (`DesignRule.type`). -/
inductive RuleType where
  | color | fontSize | fontFamily | image | text | slideType | custom
deriving DecidableEq, Repr

/-- The kind-dependent parameter bag (`DesignRule.parameters`). -/
structure RuleParameters where
  allowedValues : Option (List String) := none
  minValue : Option ℚ := none
  maxValue : Option ℚ := none
  forbidden : Option (List String) := none
  slideTypes : Option (List String) := none
  pattern : Option String := none
deriving DecidableEq, Repr

/-- A compiled design rule. -/
structure DesignRule where
  id : String
  description : String
  type : RuleType
  parameters : RuleParameters
deriving DecidableEq, Repr

/-- Severity of a violation. -/
inductive Severity where
  | error | warning
deriving DecidableEq, Repr

/-- A violation record emitted by the validation engine. -/
structure Violation where
  slide : ℕ
  rule : DesignRule
  description : String
  elements : List String
  severity : Severity
deriving DecidableEq, Repr

/-! ## Rule compiler (`rules-parser.ts`) -/

/-- The two-fallback allow-list extraction `extractAllowedValues`:
`allowed[:] <list>` first, then `only <list> (are allowed)?`, the list split
on commas, ampersands or a surrounding `and`, items trimmed, empty items
dropped (`filter(Boolean)`). -/
def extractAllowedValues (text : String) : List String :=
  match reSearchCapture colonListRE text with
  | some cap =>
    ((jsSplit listSepRE (String.mk cap)).map jsTrim).filter (fun s => s ≠ "")
  | none =>
    match reSearchCapture onlyListRE text with
    | some cap =>
      ((jsSplit listSepRE (String.mk cap)).map jsTrim).filter (fun s => s ≠ "")
    | none => []

/-- `extractMinValue`: first of the `min…`, `at least`, `<n> pt or higher`
patterns whose match succeeds, its digits parsed. -/
def extractMinValue (text : String) : Option ℚ :=
  match reSearchCapture minRE text with
  | some ds => some (parseIntDigits ds : ℚ)
  | none =>
    match reSearchCapture atLeastRE text with
    | some ds => some (parseIntDigits ds : ℚ)
    | none =>
      match reSearchCapture orHigherRE text with
      | some ds => some (parseIntDigits ds : ℚ)
      | none => none

/-- `extractMaxValue`: the `max…` pattern, then `no more than <n>`. -/
def extractMaxValue (text : String) : Option ℚ :=
  match reSearchCapture maxRE text with
  | some ds => some (parseIntDigits ds : ℚ)
  | none =>
    match reSearchCapture noMoreThanRE text with
    | some ds => some (parseIntDigits ds : ℚ)
    | none => none

/-- `extractSlideTypes`: scope tags pushed in the fixed order
`title`, `content`, `all` when the matching substrings occur. -/
def extractSlideTypes (text : String) : List String :=
  (if jsIncludes text "title slide" then ["title"] else []) ++
  (if jsIncludes text "content slide" then ["content"] else []) ++
  (if jsIncludes text "all slide" then ["all"] else [])

/-- Strip of the leading bullet marker, `replace(/^[-*]\s*/, '')`. -/
def stripBullet (s : String) : String :=
  match s.data with
  | [] => s
  | c :: rest =>
    if c = '-' ∨ c = '*' then String.mk (rest.dropWhile Char.isWhitespace) else s

/-- Synthetic rule id `rule-<n>`. -/
def ruleId (n : ℕ) : String := "rule-" ++ toString n

/-- `parseRuleText`: classify one (already lower-cased, trimmed) statement by
the source's cascade of `includes` tests, first match wins; the image branch
additionally requires a negation cue and otherwise falls through. -/
def parseRuleText (ruleText : String) (id : ℕ) : Option DesignRule :=
  let cleanText := jsTrim (stripBullet ruleText)
  if jsIncludes cleanText "text color" && jsIncludes cleanText "allowed" then
    some { id := ruleId id, description := cleanText, type := .color,
           parameters := { allowedValues := some (extractAllowedValues cleanText) } }
  else if jsIncludes cleanText "font size" ||
          (jsIncludes cleanText "title" && jsIncludes cleanText "size") then
    some { id := ruleId id, description := cleanText, type := .fontSize,
           parameters := { minValue := extractMinValue cleanText,
                           maxValue := extractMaxValue cleanText } }
  else if (jsIncludes cleanText "image" || jsIncludes cleanText "picture") &&
          (jsIncludes cleanText "no " || jsIncludes cleanText "not allowed" ||
           jsIncludes cleanText "forbidden") then
    some { id := ruleId id, description := cleanText, type := .image,
           parameters := { forbidden := some ["all"],
                           slideTypes := some (extractSlideTypes cleanText) } }
  else if jsIncludes cleanText "font" &&
          (jsIncludes cleanText "family" || jsIncludes cleanText "type") then
    some { id := ruleId id, description := cleanText, type := .fontFamily,
           parameters := { allowedValues := some (extractAllowedValues cleanText) } }
  else if jsIncludes cleanText "text" && !jsIncludes cleanText "color" &&
          !jsIncludes cleanText "size" then
    some { id := ruleId id, description := cleanText, type := .text, parameters := {} }
  else if cleanText.length > 0 then
    some { id := ruleId id, description := cleanText, type := .custom, parameters := {} }
  else none

/-- The per-statement path of `parseMarkdownRules`: each candidate statement
is lower-cased and trimmed before `parseRuleText` (the markdown block
splitting performed by the third-party `marked` lexer is outside this model;
a single plain line reaches `parseRuleText` exactly like this). -/
def compileStatement (line : String) (id : ℕ) : Option DesignRule :=
  parseRuleText (jsTrim (jsToLower line)) id

/-! ## Validation engine (`rule-validator.ts`) -/

/-- A single-quote character, used inside generated messages. -/
def squote : Char := '\x27'

/-- Message of a minimum-bound font-size violation. -/
def fontSizeMinMsg (sz mn : ℚ) : String :=
  "Font size is below minimum requirement (found " ++ numStr sz ++
    "pt, minimum is " ++ numStr mn ++ "pt)"

/-- Message of a maximum-bound font-size violation. -/
def fontSizeMaxMsg (sz mx : ℚ) : String :=
  "Font size exceeds maximum requirement (found " ++ numStr sz ++
    "pt, maximum is " ++ numStr mx ++ "pt)"

/-- `validateColorRule`: empty allow-list short-circuits; otherwise every run
with a truthy color must substring-match (case-insensitively) some allowed
value. -/
def validateColorRule (slide : SlideContent) (rule : DesignRule) : List Violation :=
  let allowedColors := rule.parameters.allowedValues.getD []
  if allowedColors.length = 0 then []
  else
    slide.texts.filterMap fun text =>
      match text.color with
      | none => none
      | some c =>
        if c ≠ "" then
          let colorMatch :=
            allowedColors.any fun allowed =>
              jsIncludes (jsToLower c) (jsToLower allowed)
          if !colorMatch then
            some { slide := slide.slideNumber, rule := rule,
                   description := "Text color not in allowed list (found " ++ c ++
                     ", only " ++ jsJoin allowedColors ++ " are allowed)",
                   elements := ["Text \"" ++ jsSubstr0 text.content 50 ++
                     "...\" with color " ++ c],
                   severity := .error }
          else none
        else none

/-- The loop body of `validateFontSizeRule` for one run: the mutable
`violationFound`/`violationMessage` pair threaded through the min check and
then the max check (the max check overwrites the message).  Returns the final
message and the run's size when a violation was found. -/
def fontSizeRunCheck (minSize maxSize : Option ℚ) (text : TextRun) :
    Option (String × ℚ) :=
  match text.fontSize with
  | none => none
  | some sz =>
    if decide (sz ≠ 0) then
      let st1 : Bool × String :=
        if qTruthy minSize && decide (sz < minSize.getD 0) then
          (true, fontSizeMinMsg sz (minSize.getD 0))
        else (false, "")
      let st2 : Bool × String :=
        if qTruthy maxSize && decide (sz > maxSize.getD 0) then
          (true, fontSizeMaxMsg sz (maxSize.getD 0))
        else st1
      if st2.1 then some (st2.2, sz) else none
    else none

/-- Construction of the violation record pushed by `validateFontSizeRule`. -/
def fontSizeViolation (slide : SlideContent) (rule : DesignRule) (text : TextRun)
    (msgSz : String × ℚ) : Violation :=
  { slide := slide.slideNumber, rule := rule,
    description := msgSz.1,
    elements := ["Text \"" ++ jsSubstr0 text.content 30 ++ "...\": " ++
      numStr msgSz.2 ++ "pt"],
    severity := .error }

/-- `validateFontSizeRule`: at most one violation per run with a truthy size. -/
def validateFontSizeRule (slide : SlideContent) (rule : DesignRule) : List Violation :=
  slide.texts.filterMap fun text =>
    (fontSizeRunCheck rule.parameters.minValue rule.parameters.maxValue text).map
      (fontSizeViolation slide rule text)

/-- `validateFontFamilyRule`: same allow-list policy as the color checker,
applied to `fontFamily`. -/
def validateFontFamilyRule (slide : SlideContent) (rule : DesignRule) : List Violation :=
  let allowedFonts := rule.parameters.allowedValues.getD []
  if allowedFonts.length = 0 then []
  else
    slide.texts.filterMap fun text =>
      match text.fontFamily with
      | none => none
      | some ff =>
        if ff ≠ "" then
          let fontMatch :=
            allowedFonts.any fun allowed =>
              jsIncludes (jsToLower ff) (jsToLower allowed)
          if !fontMatch then
            some { slide := slide.slideNumber, rule := rule,
                   description := "Font family not in allowed list (found " ++ ff ++
                     ", only " ++ jsJoin allowedFonts ++ " are allowed)",
                   elements := ["Text with font " ++ ff],
                   severity := .error }
          else none
        else none

/-- Message of an image violation (quotes the rule's description). -/
def imageViolationMsg (d : String) : String :=
  "Slide contains images, which violates the " ++ String.singleton squote ++ d ++
    String.singleton squote ++ " rule"

/-- `validateImageRule`: fires when `forbidden` contains `all` or `images`;
`isTitleSlide` is slide #1 *or* a rule whose `slideTypes` contains `title`;
the rule applies when `slideTypes` is empty, contains `all`, or the
title-scoped conjunction holds; one violation listing every image. -/
def validateImageRule (slide : SlideContent) (rule : DesignRule) : List Violation :=
  let forbidden := rule.parameters.forbidden.getD []
  let slideTypes := rule.parameters.slideTypes.getD []
  if forbidden.contains "all" || forbidden.contains "images" then
    let isTitleSlide := slide.slideNumber == 1 || slideTypes.contains "title"
    let shouldApplyRule := slideTypes.isEmpty || slideTypes.contains "all" ||
      (isTitleSlide && slideTypes.contains "title")
    if shouldApplyRule && decide (slide.images.length > 0) then
      [{ slide := slide.slideNumber, rule := rule,
         description := imageViolationMsg rule.description,
         elements := slide.images.map fun img => "Image: " ++ img.name,
         severity := .error }]
    else []
  else []

/-- `validateTextRule`: a single warning when the slide has no text runs and
the rule's description contains `required`. -/
def validateTextRule (slide : SlideContent) (rule : DesignRule) : List Violation :=
  if slide.texts.length == 0 && jsIncludes rule.description "required" then
    [{ slide := slide.slideNumber, rule := rule,
       description := "Slide has no text content but text is required",
       elements := ["No text found on slide"],
       severity := .warning }]
  else []

/-- `validateCustomRule`: always empty. -/
def validateCustomRule (_slide : SlideContent) (_rule : DesignRule) : List Violation :=
  []

/-- `validateSlideAgainstRule`: dispatch on the rule kind (the reserved
`slide-type` kind has no switch case and contributes nothing). -/
def validateSlideAgainstRule (slide : SlideContent) (rule : DesignRule) : List Violation :=
  match rule.type with
  | .color => validateColorRule slide rule
  | .fontSize => validateFontSizeRule slide rule
  | .fontFamily => validateFontFamilyRule slide rule
  | .image => validateImageRule slide rule
  | .text => validateTextRule slide rule
  | .custom => validateCustomRule slide rule
  | .slideType => []

/-- `validatePresentation`: rule-major, slide-minor double iteration. -/
def validatePresentation (presentation : ParsedPresentation) (rules : List DesignRule) :
    List Violation :=
  rules.flatMap fun rule =>
    presentation.slides.flatMap fun slide => validateSlideAgainstRule slide rule

/-! ## Package extractor (`pptx-parser.ts`, the `fast-xml-parser` variant)

The zip container is modelled as the list of its entries in archive order
(`Object.keys(zip.files)` order).  Each entry carries its name, its raw
content string (only its truthiness is consumed by `parsePptxFile`) and the
abstract outcome of running the XML parser plus the shape/paragraph/run walk
of `parseSlideXml` on that content (`none` models a thrown parse error), and
likewise the abstract outcome of `parseThemeXml`.  The canonical
`parseSlideXml` populates only `texts`; `images` and `shapes` are initialized
empty and never filled. -/

structure ZipFile where
  name : String
  content : String
  slideXml : Option (List TextRun)
  themeXml : Option ThemeData := none
deriving DecidableEq, Repr

structure Zip where
  files : List ZipFile
deriving DecidableEq, Repr

/-- `zip.file(name)`: lookup of an entry by exact name. -/
def zipLookup (zip : Zip) (name : String) : Option ZipFile :=
  zip.files.find? fun f => f.name == name

/-- `parseInt(fileName.match(/slide(\d+)\.xml/)?.[1] || "0")`. -/
def slideIndexOf (name : String) : ℕ :=
  match reSearchCapture slideNumRE name with
  | some ds => parseIntDigits ds
  | none => 0

/-- Stable insertion into a list sorted by `slideIndexOf` (JavaScript's
`Array.prototype.sort` is stable; equal keys keep archive order). -/
def insertBySlideIndex (x : String) : List String → List String
  | [] => [x]
  | y :: ys =>
    if slideIndexOf x < slideIndexOf y then x :: y :: ys
    else y :: insertBySlideIndex x ys

/-- The selected slide part names: filter by the naming convention, then
sort by the embedded numeric index. -/
def slideFileNames (zip : Zip) : List String :=
  ((zip.files.map fun f => f.name).filter fun n =>
      jsStartsWith n "ppt/slides/slide" && jsEndsWith n ".xml").foldl
    (fun acc n => insertBySlideIndex n acc) []

/-- `parseSlideXml` applied to a successfully parsed slide part: only
`texts` is populated, `slideNumber` is the 1-based loop index. -/
def mkSlide (slideNumber : ℕ) (texts : List TextRun) : SlideContent :=
  { slideNumber := slideNumber, texts := texts, images := [], shapes := [],
    background := none }

/-- The slide loop of `parsePptxFile`: `i` is the loop index over the sorted
slide file list; a missing entry or a falsy (empty) content string skips the
file (the index still advances); a parse failure throws, aborting the loop
(`none`). -/
def buildSlides (zip : Zip) : ℕ → List String → Option (List SlideContent)
  | _, [] => some []
  | i, name :: rest =>
    match zipLookup zip name with
    | none => buildSlides zip (i + 1) rest
    | some f =>
      if f.content = "" then buildSlides zip (i + 1) rest
      else
        match f.slideXml with
        | none => none
        | some texts =>
          (buildSlides zip (i + 1) rest).map fun tl => mkSlide (i + 1) texts :: tl

/-- The theme step of `parsePptxFile`: absent theme part gives no theme; a
present part is parsed by `parseThemeXml`, whose parse failure throws
(`none` at the outer level). -/
def parseTheme (zip : Zip) : Option (Option ThemeData) :=
  match zipLookup zip "ppt/theme/theme1.xml" with
  | none => some none
  | some f =>
    match f.themeXml with
    | none => none
    | some t => some (some t)

/-- The message of the catch-all `throw new Error(...)` in `parsePptxFile`. -/
def pptxErrMsg : String :=
  "Failed to parse PowerPoint file. Please ensure it is a valid .pptx file."

/-- `parsePptxFile`: the whole body runs under one `try`; the input models
the outcome of `JSZip.loadAsync` (`none` = the container failed to unpack).
Any error thrown anywhere inside surfaces as the single generic message. -/
def parsePptxFile (load : Option Zip) : Except String ParsedPresentation :=
  match load with
  | none => .error pptxErrMsg
  | some zip =>
    match buildSlides zip 0 (slideFileNames zip) with
    | none => .error pptxErrMsg
    | some slides =>
      match parseTheme zip with
      | none => .error pptxErrMsg
      | some theme => .ok { slides := slides, theme := theme }

/-! ## Concrete fixtures -/

/-- The rule compiled from `"Font size minimum is 36"`. -/
def c6rule : DesignRule :=
  { id := "rule-1", description := "font size minimum is 36", type := .fontSize,
    parameters := { minValue := some 36 } }

/-- A slide whose single run has font size 24pt. -/
def c6slide : SlideContent :=
  { slideNumber := 1, texts := [{ content := "Welcome" , fontSize := some 24 }],
    images := [], shapes := [] }

/-- C6: the rule text `Font size minimum is 36` compiles to a font-size rule
with `minValue = 36` and no `maxValue`, and a slide with a 24pt run yields
exactly one error violation whose description mentions `24pt` and `36pt`. -/
theorem c6_font_size_min_rule :
    compileStatement "Font size minimum is 36" 1 = some c6rule
  ∧ c6rule.parameters.minValue = some 36
  ∧ c6rule.parameters.maxValue = none
  ∧ validateSlideAgainstRule c6slide c6rule =
      [{ slide := 1, rule := c6rule,
         description := "Font size is below minimum requirement (found 24pt, minimum is 36pt)",
         elements := ["Text \"Welcome...\": 24pt"],
         severity := .error }]
  ∧ jsIncludes "Font size is below minimum requirement (found 24pt, minimum is 36pt)" "24pt" = true
  ∧ jsIncludes "Font size is below minimum requirement (found 24pt, minimum is 36pt)" "36pt" = true := by
  refine ⟨by decide, rfl, rfl, by decide, by decide, by decide⟩

/-- C9: custom-typed rules never produce violations, whatever the slide's
content or the rule's parameters. -/
theorem c9_custom_rules_never_fire (slide : SlideContent) (rule : DesignRule)
    (h : rule.type = RuleType.custom) :
    validateSlideAgainstRule slide rule = [] := by
  obtain ⟨i, d, t, p⟩ := rule
  cases h
  rfl

/-- A custom rule with arbitrary content in the parameter bag. -/
def c9rule : DesignRule :=
  { id := "rule-3", description := "slides must feel welcoming", type := .custom,
    parameters := { allowedValues := some ["black"], minValue := some 12 } }

/-- A nonempty slide exercising every checker input. -/
def c9slide : SlideContent :=
  { slideNumber := 4,
    texts := [{ content := "Hi", fontSize := some 8, fontFamily := some "Arial",
                color := some "00FF00" }],
    images := [{ name := "pic.png", type := "embedded" }],
    shapes := [{ type := "shape" }] }

/-- Witness for C9 at a concrete slide and custom rule. -/
theorem c9_custom_rules_never_fire_witness :
    validateSlideAgainstRule c9slide c9rule = [] :=
  c9_custom_rules_never_fire c9slide c9rule rfl

/-- C8: a color or font-family rule whose allow-list is absent or empty is a
no-op: it contributes zero violations for every slide (and the checkers are
total functions, never failing). -/
theorem c8_empty_allow_list_noop (slide : SlideContent) (rule : DesignRule)
    (h : rule.parameters.allowedValues = none ∨
         rule.parameters.allowedValues = some []) :
    validateColorRule slide rule = [] ∧ validateFontFamilyRule slide rule = [] := by
  rcases h with h | h <;>
    constructor <;>
      simp [validateColorRule, validateFontFamilyRule, h]

/-- A color rule with an absent allow-list. -/
def c8ruleNone : DesignRule :=
  { id := "rule-1", description := "text color allowed", type := .color,
    parameters := {} }

/-- A font-family rule with an empty allow-list. -/
def c8ruleEmpty : DesignRule :=
  { id := "rule-2", description := "font family only allowed", type := .fontFamily,
    parameters := { allowedValues := some [] } }

/-- Witness for C8 at a concrete slide against both degenerate rules. -/
theorem c8_empty_allow_list_noop_witness :
    validateColorRule c9slide c8ruleNone = [] ∧
    validateFontFamilyRule c9slide c8ruleEmpty = [] :=
  ⟨(c8_empty_allow_list_noop c9slide c8ruleNone (Or.inl rfl)).1,
   (c8_empty_allow_list_noop c9slide c8ruleEmpty (Or.inr rfl)).2⟩

/-- The image rule `forbidden = ["all"]`, `slideTypes = ["title"]` (as
compiled from `"No images allowed on title slides"`). -/
def c1rule : DesignRule :=
  { id := "rule-1", description := "no images allowed on title slides",
    type := .image,
    parameters := { forbidden := some ["all"], slideTypes := some ["title"] } }

/-- A non-title slide (slide 2) that carries an image. -/
def c1badSlide : SlideContent :=
  { slideNumber := 2, texts := [],
    images := [{ name := "chart.png", type := "embedded" }], shapes := [] }

/-- The counterexample to C1 as stated: the title-scoped image rule emits a
violation on slide 2 as well, because `isTitleSlide` is satisfied by the
rule's own `slideTypes` containing `title` on every slide. -/
theorem c1_counterexample :
    (validateImageRule c1badSlide c1rule).map (fun v => v.slide) = [2]
  ∧ c1badSlide.slideNumber ≠ 1 := by
  constructor
  · rfl
  · decide

/-- The violation emitted by `validateImageRule` when it fires. -/
def c1v (slide : SlideContent) (rule : DesignRule) : Violation :=
  { slide := slide.slideNumber, rule := rule,
    description := imageViolationMsg rule.description,
    elements := slide.images.map fun img => "Image: " ++ img.name,
    severity := .error }

/-- The example presentation: slide 1 with two images, slide 2 with none. -/
def c1pres : ParsedPresentation :=
  { slides :=
      [{ slideNumber := 1, texts := [],
         images := [{ name := "img1.png", type := "embedded" },
                    { name := "img2.png", type := "embedded" }], shapes := [] },
       { slideNumber := 2, texts := [], images := [], shapes := [] }] }

/-- C1 amended: a rule with `forbidden = ["all"]` and `slideTypes = ["title"]`
applies to every slide (the code marks any slide as a title slide once the
rule's `slideTypes` contains `title`), emitting one violation exactly when the
slide has at least one image; on the example presentation (slide 1 with two
images, slide 2 with none) this still yields exactly one violation, on slide
1, listing both image names. -/
theorem c1_title_image_rule_amended :
    (∀ (slide : SlideContent) (rule : DesignRule),
        rule.parameters.forbidden = some ["all"] →
        rule.parameters.slideTypes = some ["title"] →
        validateImageRule slide rule =
          if slide.images.length > 0 then [c1v slide rule] else [])
  ∧ (validatePresentation c1pres [c1rule]).map (fun v => (v.slide, v.elements)) =
      [(1, ["Image: img1.png", "Image: img2.png"])] := by
  constructor
  · intro slide rule hf ht
    unfold validateImageRule
    rw [hf, ht]
    simp [c1v, List.contains]
  · rfl

/-- Witness for the amended C1 at the concrete non-title slide. -/
theorem c1_title_image_rule_amended_witness :
    validateImageRule c1badSlide c1rule = [c1v c1badSlide c1rule] := by
  have h := c1_title_image_rule_amended.1 c1badSlide c1rule rfl rfl
  simpa using h

/-- A font-size rule whose bounds make a single run violate both of them
(minimum 50, maximum 10). -/
def c2rule : DesignRule :=
  { id := "rule-1", description := "font size minimum is 50 and maximum is 10",
    type := .fontSize,
    parameters := { minValue := some 50, maxValue := some 10 } }

/-- A slide with one 24pt run: 24 < 50 and 24 > 10, so both bounds fire. -/
def c2slide : SlideContent :=
  { slideNumber := 1, texts := [{ content := "Agenda", fontSize := some 24 }],
    images := [], shapes := [] }

/-- The counterexample to C2 as stated: on a run violating both bounds the
single kept violation carries the MAXIMUM-bound description (the max check
overwrites the min message), not the minimum-bound one. -/
theorem c2_counterexample :
    (validateFontSizeRule c2slide c2rule).map (fun v => v.description) =
      ["Font size exceeds maximum requirement (found 24pt, maximum is 10pt)"]
  ∧ ("Font size exceeds maximum requirement (found 24pt, maximum is 10pt)" : String) ≠
      "Font size is below minimum requirement (found 24pt, minimum is 50pt)" := by
  constructor
  · rfl
  · decide

/-- C2 amended: for every run with a truthy font size that violates both the
minimum and the maximum bound, exactly one violation is emitted for that run
(the per-run check yields at most one result and the checker is its
`filterMap`), and the violation kept is the LAST match in check order — the
max check runs after the min check and overwrites the message — so its
description reports the maximum bound. -/
theorem c2_both_bounds_amended :
    (∀ (slide : SlideContent) (rule : DesignRule),
        validateFontSizeRule slide rule =
          slide.texts.filterMap fun text =>
            (fontSizeRunCheck rule.parameters.minValue rule.parameters.maxValue
              text).map (fontSizeViolation slide rule text))
  ∧ (∀ (mn mx sz : ℚ) (text : TextRun), text.fontSize = some sz →
        sz ≠ 0 → mn ≠ 0 → mx ≠ 0 → sz < mn → mx < sz →
        fontSizeRunCheck (some mn) (some mx) text =
          some (fontSizeMaxMsg sz mx, sz)) := by
  constructor
  · intro slide rule
    rfl
  · intro mn mx sz text hfs hsz hmn hmx hlt hgt
    unfold fontSizeRunCheck
    rw [hfs]
    simp [qTruthy, hsz, hmn, hmx, hlt, hgt]

/-- Witness for the amended C2 at the concrete doubly-violating run. -/
theorem c2_both_bounds_amended_witness :
    fontSizeRunCheck (some 50) (some 10) { content := "Agenda", fontSize := some 24 } =
      some (fontSizeMaxMsg 24 10, 24) :=
  c2_both_bounds_amended.2 50 10 24 { content := "Agenda", fontSize := some 24 }
    rfl (by norm_num) (by norm_num) (by norm_num) (by norm_num) (by norm_num)

/-- Every violation the color checker emits has severity `error`. -/
theorem validateColorRule_severity (slide : SlideContent) (rule : DesignRule) :
    ∀ v ∈ validateColorRule slide rule, v.severity = .error := by
  intro v hv
  unfold validateColorRule at hv
  dsimp only at hv
  split at hv
  · simp at hv
  · rw [List.mem_filterMap] at hv
    obtain ⟨t, -, ht⟩ := hv
    rcases hc : t.color with - | c <;> rw [hc] at ht
    · simp at ht
    · simp only [ne_eq] at ht
      split at ht
      · split at ht
        · rw [Option.some_inj] at ht
          subst ht
          rfl
        · simp at ht
      · simp at ht

/-- Every violation the font-size checker emits has severity `error`. -/
theorem validateFontSizeRule_severity (slide : SlideContent) (rule : DesignRule) :
    ∀ v ∈ validateFontSizeRule slide rule, v.severity = .error := by
  intro v hv
  unfold validateFontSizeRule at hv
  rw [List.mem_filterMap] at hv
  obtain ⟨t, -, ht⟩ := hv
  rcases ho : fontSizeRunCheck rule.parameters.minValue rule.parameters.maxValue t
    with - | ms <;> rw [ho] at ht
  · simp at ht
  · rw [Option.map_some', Option.some_inj] at ht
    subst ht
    rfl

/-- Every violation the font-family checker emits has severity `error`. -/
theorem validateFontFamilyRule_severity (slide : SlideContent) (rule : DesignRule) :
    ∀ v ∈ validateFontFamilyRule slide rule, v.severity = .error := by
  intro v hv
  unfold validateFontFamilyRule at hv
  dsimp only at hv
  split at hv
  · simp at hv
  · rw [List.mem_filterMap] at hv
    obtain ⟨t, -, ht⟩ := hv
    rcases hc : t.fontFamily with - | ff <;> rw [hc] at ht
    · simp at ht
    · simp only [ne_eq] at ht
      split at ht
      · split at ht
        · rw [Option.some_inj] at ht
          subst ht
          rfl
        · simp at ht
      · simp at ht

/-- Every violation the image checker emits has severity `error`. -/
theorem validateImageRule_severity (slide : SlideContent) (rule : DesignRule) :
    ∀ v ∈ validateImageRule slide rule, v.severity = .error := by
  intro v hv
  unfold validateImageRule at hv
  dsimp only at hv
  split at hv
  · split at hv
    · rw [List.mem_singleton] at hv
      subst hv
      rfl
    · simp at hv
  · simp at hv

/-- C7: a slide with zero text runs and a text rule whose description
contains `required` yields exactly one warning violation; without `required`
it yields none; and text rules are the only source of warnings — every
violation of every other rule kind has severity `error`. -/
theorem c7_text_rule_warnings :
    (∀ (slide : SlideContent) (rule : DesignRule),
        slide.texts = [] → rule.type = .text →
        jsIncludes rule.description "required" = true →
        validateSlideAgainstRule slide rule =
          [{ slide := slide.slideNumber, rule := rule,
             description := "Slide has no text content but text is required",
             elements := ["No text found on slide"],
             severity := .warning }])
  ∧ (∀ (slide : SlideContent) (rule : DesignRule),
        slide.texts = [] → rule.type = .text →
        jsIncludes rule.description "required" = false →
        validateSlideAgainstRule slide rule = [])
  ∧ (∀ (slide : SlideContent) (rule : DesignRule),
        rule.type ≠ .text →
        ∀ v ∈ validateSlideAgainstRule slide rule, v.severity = .error) := by
  refine ⟨?_, ?_, ?_⟩
  · intro slide rule htexts htype hreq
    unfold validateSlideAgainstRule
    rw [htype]
    unfold validateTextRule
    rw [htexts, hreq]
    rfl
  · intro slide rule htexts htype hreq
    unfold validateSlideAgainstRule
    rw [htype]
    unfold validateTextRule
    rw [hreq]
    simp
  · intro slide rule hne v hv
    unfold validateSlideAgainstRule at hv
    rcases htype : rule.type <;> rw [htype] at hv
    case color => exact validateColorRule_severity slide rule v hv
    case fontSize => exact validateFontSizeRule_severity slide rule v hv
    case fontFamily => exact validateFontFamilyRule_severity slide rule v hv
    case image => exact validateImageRule_severity slide rule v hv
    case text => exact absurd htype hne
    case slideType => exact absurd hv (List.not_mem_nil v)
    case custom => exact absurd hv (List.not_mem_nil v)

/-- A text rule whose description contains `required`. -/
def c7ruleReq : DesignRule :=
  { id := "rule-1", description := "every slide text is required",
    type := .text, parameters := {} }

/-- A text rule whose description lacks `required`. -/
def c7ruleNoReq : DesignRule :=
  { id := "rule-2", description := "text should be friendly",
    type := .text, parameters := {} }

/-- A slide with zero text runs. -/
def c7emptySlide : SlideContent :=
  { slideNumber := 3, texts := [], images := [], shapes := [] }

/-- Witness for C7 at concrete slides and rules. -/
theorem c7_text_rule_warnings_witness :
    validateSlideAgainstRule c7emptySlide c7ruleReq =
      [{ slide := 3, rule := c7ruleReq,
         description := "Slide has no text content but text is required",
         elements := ["No text found on slide"],
         severity := .warning }]
  ∧ validateSlideAgainstRule c7emptySlide c7ruleNoReq = [] := by
  constructor
  · exact c7_text_rule_warnings.1 c7emptySlide c7ruleReq rfl rfl (by decide)
  · exact c7_text_rule_warnings.2.1 c7emptySlide c7ruleNoReq rfl rfl (by decide)

/-- The minimum-bound and maximum-bound messages are always distinct (their
literal prefixes differ at character 10). -/
theorem fontSizeMinMsg_ne_maxMsg (a b c d : ℚ) :
    fontSizeMinMsg a b ≠ fontSizeMaxMsg c d := by
  intro h
  have h2 := congrArg (fun s => s.data[10]?) h
  simp only [fontSizeMinMsg, fontSizeMaxMsg, String.data_append,
    List.append_assoc] at h2
  rw [List.getElem?_append, List.getElem?_append] at h2
  simp at h2

/-- A zero minimum bound behaves exactly like an absent one in the per-run
check (`minSize && ...` is falsy either way). -/
theorem fontSizeRunCheck_min_zero (mx : Option ℚ) (t : TextRun) :
    fontSizeRunCheck (some 0) mx t = fontSizeRunCheck none mx t := by
  unfold fontSizeRunCheck
  rcases t.fontSize with - | sz
  · rfl
  · simp [qTruthy]

/-- A zero maximum bound behaves exactly like an absent one in the per-run
check. -/
theorem fontSizeRunCheck_max_zero (mn : Option ℚ) (t : TextRun) :
    fontSizeRunCheck mn (some 0) t = fontSizeRunCheck mn none t := by
  unfold fontSizeRunCheck
  rcases t.fontSize with - | sz
  · rfl
  · simp [qTruthy]

/-- With an absent minimum bound, any violation message produced by the
per-run check is a maximum-bound message. -/
theorem fontSizeRunCheck_none_min_msg (mx : Option ℚ) (t : TextRun)
    (ms : String × ℚ) (h : fontSizeRunCheck none mx t = some ms) :
    ms.1 = fontSizeMaxMsg ms.2 (mx.getD 0) := by
  unfold fontSizeRunCheck at h
  rcases hf : t.fontSize with - | sz <;> rw [hf] at h
  · exact absurd h (by simp)
  · dsimp only at h
    split_ifs at h <;>
      first
        | (rw [Option.some_inj] at h; subst h; rfl)
        | simp_all [qTruthy]

/-- With an absent maximum bound, any violation message produced by the
per-run check is a minimum-bound message. -/
theorem fontSizeRunCheck_none_max_msg (mn : Option ℚ) (t : TextRun)
    (ms : String × ℚ) (h : fontSizeRunCheck mn none t = some ms) :
    ms.1 = fontSizeMinMsg ms.2 (mn.getD 0) := by
  unfold fontSizeRunCheck at h
  rcases hf : t.fontSize with - | sz <;> rw [hf] at h
  · exact absurd h (by simp)
  · dsimp only at h
    split_ifs at h <;>
      first
        | (rw [Option.some_inj] at h; subst h; rfl)
        | simp_all [qTruthy]

/-- Everything a font-size violation records apart from the embedded rule
object. -/
def violData (v : Violation) : ℕ × String × List String × Severity :=
  (v.slide, v.description, v.elements, v.severity)

/-- Replacement of a rule's `minValue`. -/
def setMinValue (rule : DesignRule) (mv : Option ℚ) : DesignRule :=
  { rule with parameters := { rule.parameters with minValue := mv } }

/-- Replacement of a rule's `maxValue`. -/
def setMaxValue (rule : DesignRule) (mv : Option ℚ) : DesignRule :=
  { rule with parameters := { rule.parameters with maxValue := mv } }

/-- C10: a font-size rule with `minValue = 0` never emits a minimum-bound
violation and one with `maxValue = 0` never emits a maximum-bound violation;
a zero bound is treated exactly like an undefined bound (the emitted
violations agree on everything but the embedded rule object), because the
bound guards test truthiness. -/
theorem c10_zero_bound_is_undefined :
    (∀ (slide : SlideContent) (rule : DesignRule),
        rule.parameters.minValue = some 0 →
        ∀ v ∈ validateFontSizeRule slide rule, ∀ a b : ℚ,
          v.description ≠ fontSizeMinMsg a b)
  ∧ (∀ (slide : SlideContent) (rule : DesignRule),
        rule.parameters.maxValue = some 0 →
        ∀ v ∈ validateFontSizeRule slide rule, ∀ a b : ℚ,
          v.description ≠ fontSizeMaxMsg a b)
  ∧ (∀ (slide : SlideContent) (rule : DesignRule),
        rule.parameters.minValue = some 0 →
        (validateFontSizeRule slide rule).map violData =
          (validateFontSizeRule slide (setMinValue rule none)).map violData)
  ∧ (∀ (slide : SlideContent) (rule : DesignRule),
        rule.parameters.maxValue = some 0 →
        (validateFontSizeRule slide rule).map violData =
          (validateFontSizeRule slide (setMaxValue rule none)).map violData) := by
  refine ⟨?_, ?_, ?_, ?_⟩
  · intro slide rule hmin v hv a b
    unfold validateFontSizeRule at hv
    rw [List.mem_filterMap] at hv
    obtain ⟨t, -, ht⟩ := hv
    rw [hmin, fontSizeRunCheck_min_zero] at ht
    rcases ho : fontSizeRunCheck none rule.parameters.maxValue t
      with - | ms <;> rw [ho] at ht
    · simp at ht
    · rw [Option.map_some', Option.some_inj] at ht
      subst ht
      have hmsg := fontSizeRunCheck_none_min_msg rule.parameters.maxValue t ms ho
      show ms.1 ≠ fontSizeMinMsg a b
      rw [hmsg]
      exact (fontSizeMinMsg_ne_maxMsg a b ms.2 _).symm
  · intro slide rule hmax v hv a b
    unfold validateFontSizeRule at hv
    rw [List.mem_filterMap] at hv
    obtain ⟨t, -, ht⟩ := hv
    rw [hmax, fontSizeRunCheck_max_zero] at ht
    rcases ho : fontSizeRunCheck rule.parameters.minValue none t
      with - | ms <;> rw [ho] at ht
    · simp at ht
    · rw [Option.map_some', Option.some_inj] at ht
      subst ht
      have hmsg := fontSizeRunCheck_none_max_msg rule.parameters.minValue t ms ho
      show ms.1 ≠ fontSizeMaxMsg a b
      rw [hmsg]
      exact fontSizeMinMsg_ne_maxMsg ms.2 _ a b
  · intro slide rule hmin
    unfold validateFontSizeRule
    rw [hmin]
    dsimp only [setMinValue]
    induction slide.texts with
    | nil => rfl
    | cons t ts ih =>
      simp only [List.filterMap_cons]
      rw [fontSizeRunCheck_min_zero]
      cases fontSizeRunCheck none rule.parameters.maxValue t with
      | none => exact ih
      | some ms =>
        simp only [Option.map_some', List.map_cons, ih]
        rfl
  · intro slide rule hmax
    unfold validateFontSizeRule
    rw [hmax]
    dsimp only [setMaxValue]
    induction slide.texts with
    | nil => rfl
    | cons t ts ih =>
      simp only [List.filterMap_cons]
      rw [fontSizeRunCheck_max_zero]
      cases fontSizeRunCheck rule.parameters.minValue none t with
      | none => exact ih
      | some ms =>
        simp only [Option.map_some', List.map_cons, ih]
        rfl

/-- A font-size rule with a zero minimum bound and a live maximum bound. -/
def c10rule : DesignRule :=
  { id := "rule-1", description := "font size minimum is 0 maximum is 5",
    type := .fontSize,
    parameters := { minValue := some 0, maxValue := some 5 } }

/-- A slide with a 10pt run (violating the max bound, below no live min). -/
def c10slide : SlideContent :=
  { slideNumber := 1, texts := [{ content := "Note", fontSize := some 10 }],
    images := [], shapes := [] }

/-- Witness for C10 at a concrete rule with `minValue = 0`: the single
emitted violation is not a minimum-bound message, and the outputs with
`minValue = some 0` and `minValue = none` agree up to the embedded rule. -/
theorem c10_zero_bound_is_undefined_witness :
    (fontSizeViolation c10slide c10rule { content := "Note", fontSize := some 10 }
        (fontSizeMaxMsg 10 5, 10)).description ≠ fontSizeMinMsg 10 0
  ∧ (validateFontSizeRule c10slide c10rule).map violData =
      (validateFontSizeRule c10slide (setMinValue c10rule none)).map violData := by
  constructor
  · exact c10_zero_bound_is_undefined.1 c10slide c10rule rfl
      (fontSizeViolation c10slide c10rule { content := "Note", fontSize := some 10 }
        (fontSizeMaxMsg 10 5, 10)) (by decide) 10 0
  · exact c10_zero_bound_is_undefined.2.2.1 c10slide c10rule rfl

/-- If some selected slide part is found with non-empty content but failing
XML, the slide loop aborts with an error, wherever that part sits in the
list. -/
theorem buildSlides_error_of_bad (zip : Zip) (name : String) (f : ZipFile)
    (hlook : zipLookup zip name = some f) (hc : f.content ≠ "")
    (hx : f.slideXml = none) :
    ∀ (names : List String) (i : ℕ), name ∈ names →
      buildSlides zip i names = none := by
  intro names
  induction names with
  | nil => intro i hmem; cases hmem
  | cons hd tl ih =>
    intro i hmem
    unfold buildSlides
    rcases List.mem_cons.mp hmem with heq | hmem'
    · subst heq
      rw [hlook]
      dsimp only
      rw [if_neg hc, hx]
    · cases hl : zipLookup zip hd with
      | none =>
        dsimp only
        exact ih (i + 1) hmem'
      | some g =>
        dsimp only
        by_cases hg : g.content = ""
        · rw [if_pos hg]
          exact ih (i + 1) hmem'
        · rw [if_neg hg]
          cases hgx : g.slideXml with
          | none => rfl
          | some texts =>
            dsimp only
            rw [ih (i + 1) hmem', Option.map_none']

/-- The fixture for C3: slide 1's XML fails to parse, slide 2 is fine. -/
def c3zip : Zip :=
  { files :=
      [{ name := "ppt/slides/slide1.xml", content := "<broken", slideXml := none },
       { name := "ppt/slides/slide2.xml", content := "<ok/>",
         slideXml := some [{ content := "Hello" }] }] }

/-- The counterexample to C3 as stated: with slide 1 corrupt and slide 2
fine, `parsePptxFile` does not skip the corrupt slide and continue — the
whole extraction fails with the generic error. -/
theorem c3_counterexample :
    parsePptxFile (some c3zip) = .error pptxErrMsg := by
  rfl

/-- C3 amended: if one individual slide part's XML fails to parse (and its
content is non-empty so the parse is attempted), the entire extraction fails
with the generic package error; no slide is skipped for it and no warning is
recorded. -/
theorem c3_corrupt_slide_aborts_amended (zip : Zip) (name : String) (f : ZipFile)
    (hmem : name ∈ slideFileNames zip) (hlook : zipLookup zip name = some f)
    (hc : f.content ≠ "") (hx : f.slideXml = none) :
    parsePptxFile (some zip) = .error pptxErrMsg := by
  unfold parsePptxFile
  dsimp only
  rw [buildSlides_error_of_bad zip name f hlook hc hx (slideFileNames zip) 0 hmem]

/-- Witness for the amended C3 at the concrete two-slide fixture. -/
theorem c3_corrupt_slide_aborts_amended_witness :
    parsePptxFile (some c3zip) = .error pptxErrMsg :=
  c3_corrupt_slide_aborts_amended c3zip "ppt/slides/slide1.xml"
    { name := "ppt/slides/slide1.xml", content := "<broken", slideXml := none }
    (by decide) (by decide) (by decide) rfl

/-- The counterexample to C4 as stated: a container that unpacks to zero
slide parts does not fail with a package error — the extractor returns a
presentation with an empty slide list. -/
theorem c4_counterexample :
    parsePptxFile (some { files := [] }) = .ok { slides := [], theme := none } := by
  rfl

/-- C4 amended: if the container unpacks successfully, zero slide parts are
found and the theme step does not throw, the extractor succeeds with an
empty slide list (no `"no slides"` failure exists in the code). -/
theorem c4_no_slides_ok_amended (zip : Zip) (t : Option ThemeData)
    (hns : slideFileNames zip = []) (hth : parseTheme zip = some t) :
    parsePptxFile (some zip) = .ok { slides := [], theme := t } := by
  unfold parsePptxFile
  dsimp only
  rw [hns]
  dsimp only [buildSlides]
  rw [hth]

/-- A container holding only a theme part. -/
def c4zip : Zip :=
  { files := [{ name := "ppt/theme/theme1.xml", content := "<t/>",
                slideXml := none,
                themeXml := some { colors := ["FFFFFF"], fonts := ["Arial"] } }] }

/-- Witness for the amended C4 at a concrete theme-only container. -/
theorem c4_no_slides_ok_amended_witness :
    parsePptxFile (some c4zip) =
      .ok { slides := [],
            theme := some { colors := ["FFFFFF"], fonts := ["Arial"] } } :=
  c4_no_slides_ok_amended c4zip
    (some { colors := ["FFFFFF"], fonts := ["Arial"] }) (by decide) rfl

/-- Whether a named part is present in the container with non-empty content
(the condition under which the slide loop does not skip it). -/
def foundNonEmpty (zip : Zip) (name : String) : Bool :=
  match zipLookup zip name with
  | some f => decide (f.content ≠ "")
  | none => false

/-- Slide numbers produced by the slide loop are strictly increasing and all
exceed the starting index. -/
theorem buildSlides_numbers (zip : Zip) :
    ∀ (names : List String) (i : ℕ) (sl : List SlideContent),
      buildSlides zip i names = some sl →
      List.Chain' (· < ·) (sl.map (fun s => s.slideNumber)) ∧
        ∀ m ∈ sl.map (fun s => s.slideNumber), i < m := by
  intro names
  induction names with
  | nil =>
    intro i sl h
    unfold buildSlides at h
    rw [Option.some_inj] at h
    subst h
    simp
  | cons hd tl ih =>
    intro i sl h
    unfold buildSlides at h
    cases hl : zipLookup zip hd <;> rw [hl] at h <;> dsimp only at h
    · obtain ⟨hch, hlb⟩ := ih (i + 1) sl h
      exact ⟨hch, fun m hm => Nat.lt_of_succ_lt (hlb m hm)⟩
    · next g =>
      by_cases hg : g.content = ""
      · rw [if_pos hg] at h
        obtain ⟨hch, hlb⟩ := ih (i + 1) sl h
        exact ⟨hch, fun m hm => Nat.lt_of_succ_lt (hlb m hm)⟩
      · rw [if_neg hg] at h
        cases hgx : g.slideXml <;> rw [hgx] at h <;> dsimp only at h
        · exact absurd h (by simp)
        · next texts =>
          cases hb : buildSlides zip (i + 1) tl <;> rw [hb] at h
          · exact absurd h (by simp)
          · next tl' =>
            rw [Option.map_some', Option.some_inj] at h
            subst h
            obtain ⟨hch, hlb⟩ := ih (i + 1) tl' hb
            refine ⟨?_, ?_⟩
            · rw [List.map_cons, List.chain'_cons']
              refine ⟨?_, hch⟩
              intro b hb'
              exact hlb b (List.mem_of_mem_head? hb')
            · intro m hm
              rw [List.map_cons, List.mem_cons] at hm
              rcases hm with hm | hm
              · simp [mkSlide] at hm
                omega
              · exact Nat.lt_of_succ_lt (hlb m hm)

/-- When no selected slide part is skipped (each is present with non-empty
content), the slide loop numbers its output densely from `i + 1`. -/
theorem buildSlides_dense (zip : Zip) :
    ∀ (names : List String) (i : ℕ) (sl : List SlideContent),
      (∀ n ∈ names, foundNonEmpty zip n = true) →
      buildSlides zip i names = some sl →
      sl.map (fun s => s.slideNumber) = List.range' (i + 1) names.length := by
  intro names
  induction names with
  | nil =>
    intro i sl hall h
    unfold buildSlides at h
    rw [Option.some_inj] at h
    subst h
    rfl
  | cons hd tl ih =>
    intro i sl hall h
    have hfe := hall hd (List.mem_cons_self hd tl)
    unfold foundNonEmpty at hfe
    unfold buildSlides at h
    cases hl : zipLookup zip hd <;> rw [hl] at h <;> rw [hl] at hfe <;>
      dsimp only at hfe
    · exact absurd hfe (by simp)
    · next g =>
      have hg : g.content ≠ "" := of_decide_eq_true hfe
      dsimp only at h
      rw [if_neg hg] at h
      cases hgx : g.slideXml <;> rw [hgx] at h <;> dsimp only at h
      · exact absurd h (by simp)
      · next texts =>
        cases hb : buildSlides zip (i + 1) tl <;> rw [hb] at h
        · exact absurd h (by simp)
        · next tl' =>
          rw [Option.map_some', Option.some_inj] at h
          subst h
          have htl := ih (i + 1) tl'
            (fun n hn => hall n (List.mem_cons_of_mem hd hn)) hb
          rw [List.map_cons, htl]
          rfl

/-- The fixture for C5: slide 1's part has empty content (skipped by the
truthiness test), slide 2 parses fine. -/
def c5zipSkip : Zip :=
  { files :=
      [{ name := "ppt/slides/slide1.xml", content := "", slideXml := some [] },
       { name := "ppt/slides/slide2.xml", content := "<ok/>",
         slideXml := some [] }] }

/-- The counterexample to C5 as stated: with slide 1's part skipped for empty
content, extraction is accepted with one successfully parsed slide whose
number is 2 — not the dense `1..N` numbering (`range' 1 1 = [1]`). -/
theorem c5_counterexample :
    (parsePptxFile (some c5zipSkip)).map
        (fun p => p.slides.map (fun s => s.slideNumber)) = .ok [2]
  ∧ ([2] : List ℕ) ≠ List.range' 1 1 := by
  constructor
  · rfl
  · decide

/-- C5 amended: in every accepted extraction the slide numbers are strictly
increasing, and they are exactly `1..N` whenever no selected slide part is
skipped (each is present with non-empty content); a skipped part leaves a
gap because the loop index still advances. -/
theorem c5_slide_numbers_amended (zip : Zip) (p : ParsedPresentation)
    (hok : parsePptxFile (some zip) = .ok p) :
    List.Chain' (· < ·) (p.slides.map (fun s => s.slideNumber))
  ∧ ((∀ name ∈ slideFileNames zip, foundNonEmpty zip name = true) →
      p.slides.map (fun s => s.slideNumber) = List.range' 1 p.slides.length) := by
  unfold parsePptxFile at hok
  dsimp only at hok
  cases hb : buildSlides zip 0 (slideFileNames zip) <;> rw [hb] at hok <;>
    dsimp only at hok
  · exact absurd hok (by simp)
  · next slides =>
    cases hth : parseTheme zip <;> rw [hth] at hok <;> dsimp only at hok
    · exact absurd hok (by simp)
    · next t =>
      rw [Except.ok.injEq] at hok
      subst hok
      refine ⟨(buildSlides_numbers zip (slideFileNames zip) 0 slides hb).1, ?_⟩
      intro hall
      have hdense := buildSlides_dense zip (slideFileNames zip) 0 slides hall hb
      have hlen : slides.length = (slideFileNames zip).length := by
        have := congrArg List.length hdense
        simpa using this
      rw [hdense, hlen]

/-- A two-slide container whose parts appear out of order in the archive and
are both present with parsable content. -/
def c5wZip : Zip :=
  { files :=
      [{ name := "ppt/slides/slide2.xml", content := "<b/>", slideXml := some [] },
       { name := "ppt/slides/slide1.xml", content := "<a/>",
         slideXml := some [{ content := "Title" }] }] }

/-- The presentation extracted from `c5wZip`. -/
def c5wPres : ParsedPresentation :=
  { slides := [mkSlide 1 [{ content := "Title" }], mkSlide 2 []], theme := none }

/-- Witness for the amended C5: with no skipped part the numbering is the
dense `1..2`. -/
theorem c5_slide_numbers_amended_witness :
    c5wPres.slides.map (fun s => s.slideNumber) =
      List.range' 1 c5wPres.slides.length :=
  (c5_slide_numbers_amended c5wZip c5wPres (by rfl)).2 (by decide)
